import Mathlib

/-!
Verification of `src/extras/blender_export_buf.py` (`export_buf_format`):
a Blender script exporting the selected polygon mesh to the flat-shaded
"BUF" JSON geometry format.

Shallow embedding notes:
* Python floats are modelled as real numbers (`ℝ`); `mathutils` vector and
  matrix operations become exact real arithmetic.  Definitions that touch
  `Real.sqrt` (the model of `Vector.length` / `Matrix.normalized`) are
  noncomputable; all structural data (indices, lengths, tags) stays
  computable on the level of kernel reduction.
* `mathutils.Matrix` (4x4 world matrix) is modelled by its linear 3x3 part
  plus translation, which captures exactly the two operations the script
  performs on it: `M @ v` on a 3D point (affine application, no perspective
  divide) and `M.to_3x3()`.
* `mathutils.Matrix.normalized()` on a 3x3 matrix normalizes each COLUMN of
  the matrix to unit Euclidean length (Blender's documented behaviour).
* The bmesh structure is modelled read-only: a mesh is a list of faces, a
  face an ordered list of loops plus a geometric normal, a loop a vertex
  (position and vertex normal) plus a per-loop UV coordinate that is
  meaningful only when the mesh has an active UV layer
  (`bm.loops.layers.uv.active`), modelled by the flag `hasUVLayer`.
* The filesystem is a map from paths to file contents; `json.dump` is
  modelled by a deterministic serializer parametric in the rendering of
  real numbers (the model of Python's float formatting).
-/

/-- A 3D vector (`mathutils.Vector` of length 3), components as reals. -/
structure Vec3 where
  x : ℝ
  y : ℝ
  z : ℝ

/-- A 2D vector (UV coordinate). -/
structure Vec2 where
  x : ℝ
  y : ℝ

/-- A 3x3 matrix, stored by rows. -/
structure Mat3 where
  r0 : Vec3
  r1 : Vec3
  r2 : Vec3

/-- Matrix-vector application: `m @ v` for a 3x3 `mathutils.Matrix`. -/
def mat3Apply (m : Mat3) (v : Vec3) : Vec3 :=
  ⟨m.r0.x * v.x + m.r0.y * v.y + m.r0.z * v.z,
   m.r1.x * v.x + m.r1.y * v.y + m.r1.z * v.z,
   m.r2.x * v.x + m.r2.y * v.y + m.r2.z * v.z⟩

/-- `mathutils.Matrix.normalized()` on a 3x3 matrix: each column is scaled
to unit Euclidean length (a zero column stays zero, since `x / 0 = 0` in
`ℝ`, matching `mathutils`' behaviour of leaving a zero basis vector). -/
noncomputable def mat3NormalizedCols (m : Mat3) : Mat3 :=
  let n0 := Real.sqrt (m.r0.x ^ 2 + m.r1.x ^ 2 + m.r2.x ^ 2)
  let n1 := Real.sqrt (m.r0.y ^ 2 + m.r1.y ^ 2 + m.r2.y ^ 2)
  let n2 := Real.sqrt (m.r0.z ^ 2 + m.r1.z ^ 2 + m.r2.z ^ 2)
  ⟨⟨m.r0.x / n0, m.r0.y / n1, m.r0.z / n2⟩,
   ⟨m.r1.x / n0, m.r1.y / n1, m.r1.z / n2⟩,
   ⟨m.r2.x / n0, m.r2.y / n1, m.r2.z / n2⟩⟩

/-- The object's 4x4 `matrix_world`, modelled by its affine decomposition:
the script only ever applies it to 3D points (`M @ v`, which in
`mathutils` extends `v` with `w = 1` and truncates back to 3D) and takes
`M.to_3x3()`, so the linear part plus translation captures it exactly. -/
structure Mat4 where
  linear : Mat3
  transl : Vec3

/-- `M @ v` for the 4x4 world matrix applied to a 3D point. -/
def mat4ApplyPoint (m : Mat4) (v : Vec3) : Vec3 :=
  let lv := mat3Apply m.linear v
  ⟨lv.x + m.transl.x, lv.y + m.transl.y, lv.z + m.transl.z⟩

/-- `M.to_3x3()`. -/
def mat4To3x3 (m : Mat4) : Mat3 := m.linear

/-- A bmesh vertex: `vert.co` and `vert.normal`. -/
structure Vert where
  co : Vec3
  normal : Vec3

/-- A bmesh loop (one face corner): its vertex and its UV coordinate
(`loop[uv_layer].uv`; meaningful only when the mesh has a UV layer). -/
structure Loop where
  vert : Vert
  uv : Vec2

/-- A bmesh face: ordered loops plus the geometric face normal. -/
structure Face where
  loops : List Loop
  normal : Vec3

/-- The bmesh built by `bm.from_mesh(obj.data)`: the ordered faces and
whether `bm.loops.layers.uv.active` is non-`None`. -/
structure Mesh where
  faces : List Face
  hasUVLayer : Bool

/-- The selected Blender object: its name, whether `obj.type == 'MESH'`,
its world matrix and its mesh data. -/
structure Obj where
  name : String
  isMesh : Bool
  matrix_world : Mat4
  mesh : Mesh

/-- One entry of the output `faces` list: `{"vertices": [...], "type": ...}`. -/
structure FaceRecord where
  vertices : List Nat
  type : String
deriving DecidableEq

/-- One attribute block: `{"array": [...], "itemSize": n, "count": n}`. -/
structure Attribute where
  array : List ℝ
  itemSize : Nat
  count : Nat

/-- The `attributes` block; `uv` is optional (present only when the `uvs`
list is non-empty, per the script's `if uvs:`). -/
structure Attributes where
  position : Attribute
  normal : Attribute
  uv : Option Attribute

/-- The `metadata` block. -/
structure Metadata where
  generator : String
  object_name : String
  vertex_count : Nat
  face_count : Nat
  quad_count : Nat
  triangle_count : Nat
  shading : String

/-- The whole `buf_data` JSON document. -/
structure BufData where
  format : String
  version : String
  metadata : Metadata
  attributes : Attributes
  faces : List FaceRecord

/-- The script's module-level constant `use_flat_shading = True`. -/
def use_flat_shading : Bool := true

/-- Mutable state of the export loop: the `vertices`, `normals`, `uvs`
flat arrays, the running `vertex_index` counter and the `face_data` list. -/
structure ExportState where
  vertices : List ℝ
  normals : List ℝ
  uvs : List ℝ
  vertex_index : Nat
  face_data : List FaceRecord

/-- Initial state of the export loop. -/
def initState : ExportState := ⟨[], [], [], 0, []⟩

/-- Body of the inner `for loop in face.loops` loop (lines 45-68 of the
script): appends the transformed position, the (flat-shaded) world normal
and the UV pair to the flat arrays, appends the running `vertex_index` to
`face_verts` and increments the counter. -/
noncomputable def processLoop (obj : Obj) (face : Face)
    (st : ExportState × List Nat) (lp : Loop) : ExportState × List Nat :=
  let s := st.1
  let face_verts := st.2
  let world_pos := mat4ApplyPoint obj.matrix_world lp.vert.co
  let world_normal :=
    if use_flat_shading then
      mat3Apply (mat3NormalizedCols (mat4To3x3 obj.matrix_world)) face.normal
    else
      mat3Apply (mat3NormalizedCols (mat4To3x3 obj.matrix_world)) lp.vert.normal
  let uvPair : List ℝ :=
    if obj.mesh.hasUVLayer then [lp.uv.x, lp.uv.y] else [0, 0]
  (⟨s.vertices ++ [world_pos.x, world_pos.y, world_pos.z],
    s.normals ++ [world_normal.x, world_normal.y, world_normal.z],
    s.uvs ++ uvPair,
    s.vertex_index + 1,
    s.face_data⟩,
   face_verts ++ [s.vertex_index])

/-- Body of the outer `for face in bm.faces` loop (lines 41-75): runs the
inner loop with an empty `face_verts`, then records the `FaceRecord` with
its `"quad"`/`"triangle"` tag. -/
noncomputable def processFace (obj : Obj) (s : ExportState) (face : Face) :
    ExportState :=
  let res := face.loops.foldl (processLoop obj face) (s, [])
  let s1 := res.1
  let face_verts := res.2
  { s1 with
    face_data := s1.face_data ++
      [⟨face_verts, if face_verts.length == 4 then "quad" else "triangle"⟩] }

/-- The document-building core of `export_buf_format` (lines 19-111): runs
the conversion loop over the faces of the object's mesh and assembles the
`buf_data` document, adding the `uv` attribute only when the `uvs` list is
non-empty (Python's `if uvs:`). -/
noncomputable def export_core (obj : Obj) : BufData :=
  let s := obj.mesh.faces.foldl (processFace obj) initState
  { format := "buf"
    version := "1.0"
    metadata :=
      { generator := "Blender BUF Exporter"
        object_name := obj.name
        vertex_count := s.vertex_index
        face_count := obj.mesh.faces.length
        quad_count := s.face_data.countP (fun f => f.type == "quad")
        triangle_count := s.face_data.countP (fun f => f.type == "triangle")
        shading := if use_flat_shading then "flat" else "smooth" }
    attributes :=
      { position := { array := s.vertices, itemSize := 3, count := s.vertex_index }
        normal := { array := s.normals, itemSize := 3, count := s.vertex_index }
        uv :=
          if s.uvs.isEmpty then none
          else some { array := s.uvs, itemSize := 2, count := s.vertex_index } }
    faces := s.face_data }

/-- Model of `json.dump(..., indent=2)` for a float list: the elements in
order, rendered by `render` (the model of Python's float formatting). -/
def renderArray (render : ℝ → String) (xs : List ℝ) : String :=
  "[" ++ String.intercalate ", " (xs.map render) ++ "]"

/-- Serialize one attribute block. -/
def renderAttribute (render : ℝ → String) (a : Attribute) : String :=
  "\x7b \"array\": " ++ renderArray render a.array ++
  ", \"itemSize\": " ++ toString a.itemSize ++
  ", \"count\": " ++ toString a.count ++ " \x7d"

/-- Serialize one face record. -/
def renderFaceRecord (f : FaceRecord) : String :=
  "\x7b \"vertices\": [" ++
  String.intercalate ", " (f.vertices.map toString) ++
  "], \"type\": \"" ++ f.type ++ "\" \x7d"

/-- Model of `json.dump(buf_data, f, indent=2)`: a deterministic textual
serialization of the document.  The exact whitespace of Python's
pretty-printer is simplified, but the function is a pure function of the
document and of `render`, which is what the byte-identity claims depend
on. -/
def serializeBuf (render : ℝ → String) (b : BufData) : String :=
  "\x7b \"format\": \"" ++ b.format ++
  "\", \"version\": \"" ++ b.version ++
  "\", \"metadata\": \x7b \"generator\": \"" ++ b.metadata.generator ++
  "\", \"object_name\": \"" ++ b.metadata.object_name ++
  "\", \"vertex_count\": " ++ toString b.metadata.vertex_count ++
  ", \"face_count\": " ++ toString b.metadata.face_count ++
  ", \"quad_count\": " ++ toString b.metadata.quad_count ++
  ", \"triangle_count\": " ++ toString b.metadata.triangle_count ++
  ", \"shading\": \"" ++ b.metadata.shading ++
  "\" \x7d, \"attributes\": \x7b \"position\": " ++
  renderAttribute render b.attributes.position ++
  ", \"normal\": " ++ renderAttribute render b.attributes.normal ++
  (match b.attributes.uv with
   | none => ""
   | some u => ", \"uv\": " ++ renderAttribute render u) ++
  " \x7d, \"faces\": [" ++
  String.intercalate ", " (b.faces.map renderFaceRecord) ++
  "] \x7d"

/-- A filesystem: a map from paths to file contents. -/
def FS : Type := String → Option String

/-- `open(filepath, 'w')` followed by a full write: replace the contents
at `filepath`, leaving every other path untouched. -/
def fsWrite (fs : FS) (filepath content : String) : FS :=
  fun p => if p = filepath then some content else fs p

/-- The whole `export_buf_format(filepath, context)` call: checks the
selected object (lines 14-17; the script raises
`Exception("Please select a mesh object")` when there is no active object
or it is not a mesh — the spec's `InvalidInputError`), builds the
document, serializes it and writes it to `filepath`.  Returns the outcome
(normal return or raised exception message) together with the final
filesystem. -/
noncomputable def export_buf_format (filepath : String)
    (active_object : Option Obj) (render : ℝ → String) (fs : FS) :
    Except String Unit × FS :=
  match active_object with
  | none => (.error "Please select a mesh object", fs)
  | some obj =>
    if obj.isMesh = false then (.error "Please select a mesh object", fs)
    else
      (.ok (), fsWrite fs filepath (serializeBuf render (export_core obj)))

/-! ### Spec-level characterization of the export loop

These helpers describe the arrays the loop produces face by face; the
lemmas below prove the loop equal to them.  They are proof infrastructure,
not a second model. -/

/-- Total number of corners ((face, loop) pairs) of a face list. -/
def cornerCount (faces : List Face) : Nat :=
  (faces.map (fun f => f.loops.length)).sum

/-- The world normal the script computes for a face (flat shading):
`obj.matrix_world.to_3x3().normalized() @ face.normal`. -/
noncomputable def faceWorldNormal (m : Mat4) (face : Face) : Vec3 :=
  mat3Apply (mat3NormalizedCols (mat4To3x3 m)) face.normal

/-- The three reals a loop contributes to the position array. -/
noncomputable def posTriple (m : Mat4) (lp : Loop) : List ℝ :=
  [(mat4ApplyPoint m lp.vert.co).x,
   (mat4ApplyPoint m lp.vert.co).y,
   (mat4ApplyPoint m lp.vert.co).z]

/-- The three reals every loop of a face contributes to the normal array. -/
noncomputable def normalTriple (m : Mat4) (face : Face) : List ℝ :=
  [(faceWorldNormal m face).x,
   (faceWorldNormal m face).y,
   (faceWorldNormal m face).z]

/-- The two reals a loop contributes to the uv array. -/
def uvPairOf (hasUV : Bool) (lp : Loop) : List ℝ :=
  if hasUV then [lp.uv.x, lp.uv.y] else [0, 0]

/-- The position array contributed by a face list. -/
noncomputable def positionsOfFaces (m : Mat4) (faces : List Face) : List ℝ :=
  (faces.map (fun f => (f.loops.map (posTriple m)).flatten)).flatten

/-- The normal array contributed by a face list. -/
noncomputable def normalsOfFaces (m : Mat4) (faces : List Face) : List ℝ :=
  (faces.map (fun f => (List.replicate f.loops.length (normalTriple m f)).flatten)).flatten

/-- The uv array contributed by a face list. -/
def uvsOfFaces (hasUV : Bool) (faces : List Face) : List ℝ :=
  (faces.map (fun f => (f.loops.map (uvPairOf hasUV)).flatten)).flatten

/-- The face records produced for a face list, corner indices starting at
`base`. -/
def buildRecords (base : Nat) : List Face → List FaceRecord
  | [] => []
  | f :: rest =>
    ⟨List.range' base f.loops.length,
     if f.loops.length == 4 then "quad" else "triangle"⟩ ::
    buildRecords (base + f.loops.length) rest


/-- The `j`-th consecutive triple of a flat array (missing entries read as
`0`): the three components of corner `j` in a 3-component attribute. -/
def tripleAt (a : List ℝ) (j : Nat) : ℝ × ℝ × ℝ :=
  (a.getD (3 * j) 0, a.getD (3 * j + 1) 0, a.getD (3 * j + 2) 0)


/-! ### Concrete test inputs -/

/-- A loop at position `v` with vertex normal `(0,0,1)` and uv `(0,0)`. -/
def mkLoop (v : Vec3) : Loop := ⟨⟨v, ⟨0, 0, 1⟩⟩, ⟨0, 0⟩⟩

/-- A single triangle face in the `z = 0` plane, normal `(0,0,1)`. -/
def triFace : Face :=
  ⟨[mkLoop ⟨0, 0, 0⟩, mkLoop ⟨1, 0, 0⟩, mkLoop ⟨0, 1, 0⟩], ⟨0, 0, 1⟩⟩

/-- The identity world transform. -/
def idMat4 : Mat4 := ⟨⟨⟨1, 0, 0⟩, ⟨0, 1, 0⟩, ⟨0, 0, 1⟩⟩, ⟨0, 0, 0⟩⟩

/-- A selected mesh object holding a single triangle and NO active UV
layer. -/
def triObj : Obj := ⟨"Tri", true, idMat4, ⟨[triFace], false⟩⟩

/-! ### Spec-modelled normal transform

The spec describes the normal transform as the "inverse-transpose of the
3x3 linear part, normalized", with the result re-normalized to unit
length after the transform.  The following definitions follow the spec's
words (not the source), so the exported normal can be compared against
the spec's formula. -/

/-- Modelled from the spec: scale a vector to unit Euclidean length (the
re-normalization step the spec asks for). -/
noncomputable def vecNormalize (v : Vec3) : Vec3 :=
  let l := Real.sqrt (v.x ^ 2 + v.y ^ 2 + v.z ^ 2)
  ⟨v.x / l, v.y / l, v.z / l⟩

/-- Transpose of a 3x3 matrix. -/
def mat3Transpose (m : Mat3) : Mat3 :=
  ⟨⟨m.r0.x, m.r1.x, m.r2.x⟩,
   ⟨m.r0.y, m.r1.y, m.r2.y⟩,
   ⟨m.r0.z, m.r1.z, m.r2.z⟩⟩

/-- Determinant of a 3x3 matrix. -/
noncomputable def mat3Det (m : Mat3) : ℝ :=
  m.r0.x * (m.r1.y * m.r2.z - m.r1.z * m.r2.y) -
  m.r0.y * (m.r1.x * m.r2.z - m.r1.z * m.r2.x) +
  m.r0.z * (m.r1.x * m.r2.y - m.r1.y * m.r2.x)

/-- Inverse of a 3x3 matrix by the adjugate (cofactor) formula. -/
noncomputable def mat3Inverse (m : Mat3) : Mat3 :=
  let d := mat3Det m
  ⟨⟨(m.r1.y * m.r2.z - m.r1.z * m.r2.y) / d,
    (m.r0.z * m.r2.y - m.r0.y * m.r2.z) / d,
    (m.r0.y * m.r1.z - m.r0.z * m.r1.y) / d⟩,
   ⟨(m.r1.z * m.r2.x - m.r1.x * m.r2.z) / d,
    (m.r0.x * m.r2.z - m.r0.z * m.r2.x) / d,
    (m.r0.z * m.r1.x - m.r0.x * m.r1.z) / d⟩,
   ⟨(m.r1.x * m.r2.y - m.r1.y * m.r2.x) / d,
    (m.r0.y * m.r2.x - m.r0.x * m.r2.y) / d,
    (m.r0.x * m.r1.y - m.r0.y * m.r1.x) / d⟩⟩

/-- Modelled from the spec: the "normal-correct counterpart" of the world
transform applied to a face normal — the inverse-transpose of the 3x3
linear part, normalized, with the result re-normalized to unit length. -/
noncomputable def specWorldNormal (m : Mat4) (n : Vec3) : Vec3 :=
  vecNormalize
    (mat3Apply (mat3NormalizedCols (mat3Transpose (mat3Inverse (mat4To3x3 m))))
      n)

/-- A shear-like world transform: linear part with rows `(3,0,0)`,
`(4,5,0)`, `(0,0,1)` (columns of Euclidean lengths 5, 5 and 1). -/
def shearMat4 : Mat4 := ⟨⟨⟨3, 0, 0⟩, ⟨4, 5, 0⟩, ⟨0, 0, 1⟩⟩, ⟨0, 0, 0⟩⟩

/-- A triangle whose face normal is `(1,1,0)`. -/
def shearFace : Face :=
  ⟨[mkLoop ⟨0, 0, 0⟩, mkLoop ⟨1, 0, 0⟩, mkLoop ⟨0, 1, 0⟩], ⟨1, 1, 0⟩⟩

/-- A selected mesh object under the non-orthonormal world transform. -/
def shearObj : Obj := ⟨"Shear", true, shearMat4, ⟨[shearFace], false⟩⟩

/-! ### Characterization lemmas for the export loop -/

/-- The inner loop over a face's loops, fully characterized: it appends
the per-loop position triples, one copy of the face's normal triple per
loop, the per-loop uv pairs, advances the corner counter by the number of
loops and collects the consecutive corner indices into `face_verts`. -/
theorem foldl_processLoop (obj : Obj) (face : Face) (loops : List Loop) :
    ∀ (s : ExportState) (fv : List Nat),
    loops.foldl (processLoop obj face) (s, fv) =
      (⟨s.vertices ++ (loops.map (posTriple obj.matrix_world)).flatten,
        s.normals ++
          (List.replicate loops.length
            (normalTriple obj.matrix_world face)).flatten,
        s.uvs ++ (loops.map (uvPairOf obj.mesh.hasUVLayer)).flatten,
        s.vertex_index + loops.length,
        s.face_data⟩,
       fv ++ List.range' s.vertex_index loops.length) := by
  induction loops with
  | nil => intro s fv; simp
  | cons lp rest ih =>
    intro s fv
    rw [List.foldl_cons, ih]
    simp only [processLoop, use_flat_shading, if_true, List.length_cons,
      List.map_cons, List.flatten_cons, List.replicate_succ, List.range'_succ,
      posTriple, normalTriple, faceWorldNormal, uvPairOf,
      List.append_assoc, List.cons_append, List.nil_append, Prod.mk.injEq,
      ExportState.mk.injEq, true_and, and_true]
    omega

/-- The outer loop over the faces, fully characterized. -/
theorem foldl_processFace (obj : Obj) (faces : List Face) :
    ∀ (s : ExportState),
    faces.foldl (processFace obj) s =
      ⟨s.vertices ++ positionsOfFaces obj.matrix_world faces,
       s.normals ++ normalsOfFaces obj.matrix_world faces,
       s.uvs ++ uvsOfFaces obj.mesh.hasUVLayer faces,
       s.vertex_index + cornerCount faces,
       s.face_data ++ buildRecords s.vertex_index faces⟩ := by
  induction faces with
  | nil =>
    intro s
    simp [positionsOfFaces, normalsOfFaces, uvsOfFaces, cornerCount,
      buildRecords]
  | cons f rest ih =>
    intro s
    rw [List.foldl_cons, show processFace obj s f =
      (⟨s.vertices ++ (f.loops.map (posTriple obj.matrix_world)).flatten,
        s.normals ++
          (List.replicate f.loops.length
            (normalTriple obj.matrix_world f)).flatten,
        s.uvs ++ (f.loops.map (uvPairOf obj.mesh.hasUVLayer)).flatten,
        s.vertex_index + f.loops.length,
        s.face_data ++
          [⟨List.range' s.vertex_index f.loops.length,
            if f.loops.length == 4 then "quad" else "triangle"⟩]⟩ :
        ExportState) from by
      simp [processFace, foldl_processLoop], ih]
    simp only [positionsOfFaces, normalsOfFaces, uvsOfFaces, cornerCount,
      buildRecords, List.map_cons, List.flatten_cons, List.sum_cons,
      List.append_assoc, List.cons_append, List.nil_append,
      ExportState.mk.injEq, true_and, and_true]
    omega

/-- `export_core`, re-expressed through the spec-level characterization of
the conversion loop. -/
theorem export_core_eq (obj : Obj) :
    export_core obj =
      { format := "buf"
        version := "1.0"
        metadata :=
          { generator := "Blender BUF Exporter"
            object_name := obj.name
            vertex_count := cornerCount obj.mesh.faces
            face_count := obj.mesh.faces.length
            quad_count :=
              (buildRecords 0 obj.mesh.faces).countP (fun f => f.type == "quad")
            triangle_count :=
              (buildRecords 0 obj.mesh.faces).countP
                (fun f => f.type == "triangle")
            shading := "flat" }
        attributes :=
          { position :=
              { array := positionsOfFaces obj.matrix_world obj.mesh.faces
                itemSize := 3
                count := cornerCount obj.mesh.faces }
            normal :=
              { array := normalsOfFaces obj.matrix_world obj.mesh.faces
                itemSize := 3
                count := cornerCount obj.mesh.faces }
            uv :=
              if (uvsOfFaces obj.mesh.hasUVLayer obj.mesh.faces).isEmpty then
                none
              else
                some
                  { array := uvsOfFaces obj.mesh.hasUVLayer obj.mesh.faces
                    itemSize := 2
                    count := cornerCount obj.mesh.faces } }
        faces := buildRecords 0 obj.mesh.faces } := by
  unfold export_core
  rw [show initState = (⟨[], [], [], 0, []⟩ : ExportState) from rfl,
    foldl_processFace]
  simp [use_flat_shading]

/-- Each position block of a face contributes three reals per loop. -/
theorem length_positionsOfFaces (m : Mat4) (faces : List Face) :
    (positionsOfFaces m faces).length = 3 * cornerCount faces := by
  induction faces with
  | nil => simp [positionsOfFaces, cornerCount]
  | cons f rest ih =>
    simp only [positionsOfFaces, cornerCount, List.map_cons, List.flatten_cons,
      List.length_append] at ih ⊢
    have hf : ((f.loops.map (posTriple m)).flatten).length = 3 * f.loops.length := by
      induction f.loops with
      | nil => simp
      | cons lp rest2 ih2 => simp [posTriple, ih2]; ring
    rw [hf, ih, List.sum_cons]
    ring

/-- Each normal block of a face contributes three reals per loop. -/
theorem length_normalsOfFaces (m : Mat4) (faces : List Face) :
    (normalsOfFaces m faces).length = 3 * cornerCount faces := by
  induction faces with
  | nil => simp [normalsOfFaces, cornerCount]
  | cons f rest ih =>
    simp only [normalsOfFaces, cornerCount, List.map_cons, List.flatten_cons,
      List.length_append] at ih ⊢
    have hf : ((List.replicate f.loops.length (normalTriple m f)).flatten).length
        = 3 * f.loops.length := by
      induction f.loops.length with
      | zero => simp
      | succ n ih2 => simp [List.replicate_succ, normalTriple, ih2]; ring
    rw [hf, ih, List.sum_cons]
    ring

/-- Each uv block of a face contributes two reals per loop. -/
theorem length_uvsOfFaces (hasUV : Bool) (faces : List Face) :
    (uvsOfFaces hasUV faces).length = 2 * cornerCount faces := by
  induction faces with
  | nil => simp [uvsOfFaces, cornerCount]
  | cons f rest ih =>
    simp only [uvsOfFaces, cornerCount, List.map_cons, List.flatten_cons,
      List.length_append] at ih ⊢
    have hf : ((f.loops.map (uvPairOf hasUV)).flatten).length
        = 2 * f.loops.length := by
      induction f.loops with
      | nil => simp
      | cons lp rest2 ih2 =>
        simp only [List.map_cons, List.flatten_cons, List.length_append,
          List.length_cons, ih2, uvPairOf]
        cases hasUV <;> simp <;> ring
    rw [hf, ih, List.sum_cons]
    ring

/-- `buildRecords` produces one record per face. -/
theorem length_buildRecords (faces : List Face) :
    ∀ base, (buildRecords base faces).length = faces.length := by
  induction faces with
  | nil => intro base; simp [buildRecords]
  | cons f rest ih => intro base; simp [buildRecords, ih]

/-- The `i`-th record of `buildRecords base faces` corresponds to the
`i`-th face: its corner indices are the contiguous range starting at
`base` plus the corners of all earlier faces. -/
theorem buildRecords_getElem? (faces : List Face) :
    ∀ (base i : Nat),
    (buildRecords base faces)[i]? =
      (faces[i]?).map (fun f =>
        (⟨List.range' (base + cornerCount (faces.take i)) f.loops.length,
          if f.loops.length == 4 then "quad" else "triangle"⟩ : FaceRecord)) := by
  induction faces with
  | nil => intro base i; simp [buildRecords]
  | cons f rest ih =>
    intro base i
    cases i with
    | zero => simp [buildRecords, cornerCount]
    | succ n =>
      simp only [buildRecords, List.getElem?_cons_succ, ih, List.take_succ_cons,
        cornerCount, List.map_cons, List.sum_cons]
      cases rest[n]? with
      | none => rfl
      | some g =>
        simp only [Option.map_some']
        rw [Nat.add_assoc]

/-- Concatenating the corner-index lists of all records yields the full
contiguous range. -/
theorem buildRecords_flatten (faces : List Face) :
    ∀ base,
    ((buildRecords base faces).map FaceRecord.vertices).flatten =
      List.range' base (cornerCount faces) := by
  induction faces with
  | nil => intro base; simp [buildRecords, cornerCount]
  | cons f rest ih =>
    intro base
    simp only [buildRecords, List.map_cons, List.flatten_cons, ih, cornerCount,
      List.sum_cons]
    rw [List.range'_append_1, Nat.add_comm]

/-- Every record of `buildRecords` carries a contiguous, strictly
increasing corner-index list. -/
theorem mem_buildRecords (faces : List Face) :
    ∀ base rec, rec ∈ buildRecords base faces →
      ∃ b, rec.vertices = List.range' b rec.vertices.length ∧
        rec.type = (if rec.vertices.length == 4 then "quad" else "triangle") := by
  induction faces with
  | nil => intro base rec h; simp [buildRecords] at h
  | cons f rest ih =>
    intro base rec h
    simp only [buildRecords, List.mem_cons] at h
    rcases h with h | h
    · subst h
      exact ⟨base, by simp, by simp⟩
    · exact ih _ rec h

/-- Reading a triple past a prefix of whole triples skips the prefix. -/
theorem tripleAt_append (u v : List ℝ) (b j : Nat) (hu : u.length = 3 * b)
    (hj : b ≤ j) : tripleAt (u ++ v) j = tripleAt v (j - b) := by
  unfold tripleAt
  have h0 : u.length ≤ 3 * j := by omega
  have h1 : u.length ≤ 3 * j + 1 := by omega
  have h2 : u.length ≤ 3 * j + 2 := by omega
  rw [List.getD_eq_getElem?_getD, List.getD_eq_getElem?_getD,
    List.getD_eq_getElem?_getD, List.getElem?_append_right h0,
    List.getElem?_append_right h1, List.getElem?_append_right h2,
    List.getD_eq_getElem?_getD, List.getD_eq_getElem?_getD,
    List.getD_eq_getElem?_getD]
  have e0 : 3 * j - u.length = 3 * (j - b) := by omega
  have e1 : 3 * j + 1 - u.length = 3 * (j - b) + 1 := by omega
  have e2 : 3 * j + 2 - u.length = 3 * (j - b) + 2 := by omega
  rw [e0, e1, e2]

/-- The flattened replication of one triple has length three per copy. -/
theorem length_replicate_flatten3 (n : Nat) (t0 t1 t2 : ℝ) :
    ((List.replicate n [t0, t1, t2]).flatten).length = 3 * n := by
  induction n with
  | zero => simp
  | succ k ih => simp only [List.replicate_succ, List.flatten_cons,
      List.length_append, ih, List.length_cons, List.length_nil]; omega

/-- Every triple read inside a flattened replication of one triple is that
triple. -/
theorem tripleAt_replicate (n : Nat) (t0 t1 t2 : ℝ) (rest : List ℝ) :
    ∀ k, k < n →
    tripleAt ((List.replicate n [t0, t1, t2]).flatten ++ rest) k =
      (t0, t1, t2) := by
  induction n with
  | zero => intro k hk; omega
  | succ m ih =>
    intro k hk
    rw [List.replicate_succ, List.flatten_cons, List.append_assoc]
    cases k with
    | zero => simp [tripleAt]
    | succ k' =>
      rw [tripleAt_append [t0, t1, t2] _ 1 (k' + 1) (by simp) (by omega)]
      simpa using ih k' (by omega)

/-- Corner `k` of the `i`-th face reads that face's world-normal triple in
the flat normal array. -/
theorem tripleAt_normalsOfFaces (m : Mat4) (faces : List Face) :
    ∀ (i : Nat) (f : Face), faces[i]? = some f →
    ∀ k, k < f.loops.length →
    tripleAt (normalsOfFaces m faces) (cornerCount (faces.take i) + k) =
      ((faceWorldNormal m f).x, (faceWorldNormal m f).y,
       (faceWorldNormal m f).z) := by
  induction faces with
  | nil => intro i f hf; simp at hf
  | cons f0 rest ih =>
    intro i f hf k hk
    cases i with
    | zero =>
      simp only [List.getElem?_cons_zero, Option.some.injEq] at hf
      have hf' : f = f0 := hf.symm
      subst hf'
      simp only [List.take_zero, cornerCount, List.map_nil, List.sum_nil,
        Nat.zero_add, normalsOfFaces, List.map_cons, List.flatten_cons]
      rw [show (List.replicate f.loops.length (normalTriple m f)).flatten ++
          ((rest.map (fun g =>
            (List.replicate g.loops.length (normalTriple m g)).flatten)).flatten) =
          (List.replicate f.loops.length
            [(faceWorldNormal m f).x, (faceWorldNormal m f).y,
             (faceWorldNormal m f).z]).flatten ++
          ((rest.map (fun g =>
            (List.replicate g.loops.length (normalTriple m g)).flatten)).flatten)
          from rfl]
      exact tripleAt_replicate f.loops.length _ _ _ _ k hk
    | succ n =>
      simp only [List.getElem?_cons_succ] at hf
      simp only [List.take_succ_cons, cornerCount, List.map_cons,
        List.sum_cons, normalsOfFaces, List.flatten_cons]
      rw [show (List.replicate f0.loops.length (normalTriple m f0)).flatten ++
          ((rest.map (fun g =>
            (List.replicate g.loops.length (normalTriple m g)).flatten)).flatten) =
          (List.replicate f0.loops.length
            [(faceWorldNormal m f0).x, (faceWorldNormal m f0).y,
             (faceWorldNormal m f0).z]).flatten ++
          ((rest.map (fun g =>
            (List.replicate g.loops.length (normalTriple m g)).flatten)).flatten)
          from rfl]
      rw [tripleAt_append _ _ f0.loops.length _
        (length_replicate_flatten3 _ _ _ _) (by omega)]
      have : f0.loops.length + ((rest.take n).map (fun g => g.loops.length)).sum
          + k - f0.loops.length
          = ((rest.take n).map (fun g => g.loops.length)).sum + k := by omega
      rw [this]
      exact ih n f hf k hk

/-- Corner `j` of the record exported for the `i`-th face reads that
face's world normal `obj.matrix_world.to_3x3().normalized() @ face.normal`
from the exported normal array. -/
theorem tripleAt_export_normal (obj : Obj) (i : Nat) (rec : FaceRecord)
    (f : Face) (h1 : (export_core obj).faces[i]? = some rec)
    (h2 : obj.mesh.faces[i]? = some f) :
    ∀ j ∈ rec.vertices,
    tripleAt (export_core obj).attributes.normal.array j =
      ((faceWorldNormal obj.matrix_world f).x,
       (faceWorldNormal obj.matrix_world f).y,
       (faceWorldNormal obj.matrix_world f).z) := by
  intro j hj
  rw [export_core_eq] at h1 ⊢
  simp only at h1 ⊢
  rw [buildRecords_getElem? obj.mesh.faces 0 i, h2, Option.map_some'] at h1
  have hrec := h1.symm
  rw [Option.some.injEq] at hrec
  subst hrec
  simp only [Nat.zero_add] at hj
  rw [List.mem_range'_1] at hj
  have hk : j = cornerCount (obj.mesh.faces.take i) +
      (j - cornerCount (obj.mesh.faces.take i)) := by omega
  rw [hk]
  exact tripleAt_normalsOfFaces obj.matrix_world obj.mesh.faces i f h2
    (j - cornerCount (obj.mesh.faces.take i)) (by omega)

/-- With no UV layer, the loop pushes the pair `(0.0, 0.0)` for every
corner, so the uv array is all zeros, two per corner. -/
theorem uvsOfFaces_false (faces : List Face) :
    uvsOfFaces false faces = List.replicate (2 * cornerCount faces) 0 := by
  induction faces with
  | nil => simp [uvsOfFaces, cornerCount]
  | cons f rest ih =>
    have hblock : ((f.loops.map (uvPairOf false)).flatten : List ℝ)
        = List.replicate (2 * f.loops.length) 0 := by
      induction f.loops with
      | nil => simp
      | cons lp rest2 ih2 =>
        simp only [List.map_cons, List.flatten_cons, ih2, uvPairOf,
          Bool.false_eq_true, if_false, List.length_cons]
        rw [show 2 * (rest2.length + 1) = 2 * rest2.length + 1 + 1 by ring,
          List.replicate_succ, List.replicate_succ]
        rfl
    simp only [uvsOfFaces, cornerCount, List.map_cons, List.flatten_cons,
      List.sum_cons] at ih ⊢
    rw [hblock, ih, ← List.replicate_add]
    congr 1
    ring

/-- The uv array is empty exactly when the mesh has no corners. -/
theorem uvsOfFaces_isEmpty (hasUV : Bool) (faces : List Face) :
    (uvsOfFaces hasUV faces).isEmpty = true ↔ cornerCount faces = 0 := by
  rw [List.isEmpty_iff_length_eq_zero, length_uvsOfFaces]
  omega

/-- Every record is tagged "quad" or "triangle", so the two counts add up
to the number of faces. -/
theorem countP_buildRecords (faces : List Face) :
    ∀ base,
    (buildRecords base faces).countP (fun r => r.type == "quad") +
      (buildRecords base faces).countP (fun r => r.type == "triangle") =
      faces.length := by
  induction faces with
  | nil => intro base; simp [buildRecords]
  | cons f rest ih =>
    intro base
    by_cases h : f.loops.length = 4
    · have := ih (base + 4)
      simp only [buildRecords, List.countP_cons, h, List.length_cons]
      simp only [beq_self_eq_true, if_true]
      simp
      omega
    · have := ih (base + f.loops.length)
      have hb : (f.loops.length == 4) = false := by
        simpa using h
      simp only [buildRecords, List.countP_cons, hb, if_false,
        List.length_cons]
      simp
      omega

/-! ### Claims -/

/-- C2: every integer in every face's "vertices" list lies in
`[0, metadata.vertex_count)`; the concatenation of all faces' vertex-index
lists is exactly the (sorted) sequence `0 .. vertex_count - 1`, so no
index is shared between two faces; and within each face the indices are a
strictly increasing, contiguous range assigned in face-traversal order. -/
theorem C2_face_index_partition (obj : Obj) :
    (∀ rec ∈ (export_core obj).faces, ∀ j ∈ rec.vertices,
      j < (export_core obj).metadata.vertex_count) ∧
    ((export_core obj).faces.map FaceRecord.vertices).flatten =
      List.range (export_core obj).metadata.vertex_count ∧
    (∀ rec ∈ (export_core obj).faces, ∃ b,
      rec.vertices = List.range' b rec.vertices.length) := by
  rw [export_core_eq]
  simp only
  refine ⟨?_, ?_, ?_⟩
  · intro rec hrec j hj
    have hjmem : j ∈
        ((buildRecords 0 obj.mesh.faces).map FaceRecord.vertices).flatten := by
      rw [List.mem_flatten]
      exact ⟨rec.vertices, List.mem_map_of_mem _ hrec, hj⟩
    rw [buildRecords_flatten, List.mem_range'_1] at hjmem
    omega
  · rw [buildRecords_flatten, List.range_eq_range']
  · intro rec hrec
    obtain ⟨b, hb, _⟩ := mem_buildRecords obj.mesh.faces 0 rec hrec
    exact ⟨b, hb⟩

/-- Witness for C2 on the concrete one-triangle object: its only record
is `{vertices := [0,1,2]}`, index 2 is below the vertex count, the
concatenation is `range 3`, and the record's indices form a contiguous
range. -/
theorem C2_face_index_partition_witness :
    2 < (export_core triObj).metadata.vertex_count ∧
    ((export_core triObj).faces.map FaceRecord.vertices).flatten =
      List.range (export_core triObj).metadata.vertex_count ∧
    ∃ b, (⟨[0, 1, 2], "triangle"⟩ : FaceRecord).vertices =
      List.range' b (⟨[0, 1, 2], "triangle"⟩ : FaceRecord).vertices.length := by
  have hmem : (⟨[0, 1, 2], "triangle"⟩ : FaceRecord) ∈ (export_core triObj).faces := by
    rw [export_core_eq]; decide
  refine ⟨(C2_face_index_partition triObj).1 _ hmem 2 (by decide),
    (C2_face_index_partition triObj).2.1,
    (C2_face_index_partition triObj).2.2 _ hmem⟩

/-- C3: the position and normal arrays have exactly `3 * vertex_count`
entries, and the uv array, when present, has `2 * vertex_count`. -/
theorem C3_array_lengths (obj : Obj) :
    (export_core obj).attributes.position.array.length =
      3 * (export_core obj).metadata.vertex_count ∧
    (export_core obj).attributes.normal.array.length =
      3 * (export_core obj).metadata.vertex_count ∧
    ∀ u, (export_core obj).attributes.uv = some u →
      u.array.length = 2 * (export_core obj).metadata.vertex_count := by
  rw [export_core_eq]
  refine ⟨length_positionsOfFaces _ _, length_normalsOfFaces _ _, ?_⟩
  intro u hu
  simp only at hu ⊢
  split at hu
  · exact absurd hu (by simp)
  · injection hu with hu
    rw [← hu]
    exact length_uvsOfFaces _ _

/-- Witness for C3 on the concrete one-triangle object, with the uv
attribute instantiated to its concrete value. -/
theorem C3_array_lengths_witness :
    (export_core triObj).attributes.uv =
      some ⟨[(0 : ℝ), 0, 0, 0, 0, 0], 2, 3⟩ ∧
    ([(0 : ℝ), 0, 0, 0, 0, 0] : List ℝ).length =
      2 * (export_core triObj).metadata.vertex_count := by
  have huv : (export_core triObj).attributes.uv =
      some ⟨[(0 : ℝ), 0, 0, 0, 0, 0], 2, 3⟩ := by
    rw [export_core_eq]; rfl
  exact ⟨huv, (C3_array_lengths triObj).2.2 _ huv⟩

/-- C5: on meshes of triangles and quads, the number of records tagged
"quad" plus the number tagged "triangle" equals the number of faces,
which is `metadata.face_count`; and the metadata quad/triangle counts are
counted from the face records. -/
theorem C5_face_counts (obj : Obj)
    (_h : ∀ f ∈ obj.mesh.faces, f.loops.length = 3 ∨ f.loops.length = 4) :
    (export_core obj).faces.countP (fun r => r.type == "quad") +
      (export_core obj).faces.countP (fun r => r.type == "triangle") =
      obj.mesh.faces.length ∧
    (export_core obj).metadata.face_count = obj.mesh.faces.length ∧
    (export_core obj).metadata.quad_count =
      (export_core obj).faces.countP (fun r => r.type == "quad") ∧
    (export_core obj).metadata.triangle_count =
      (export_core obj).faces.countP (fun r => r.type == "triangle") := by
  rw [export_core_eq]
  exact ⟨countP_buildRecords obj.mesh.faces 0, rfl, rfl, rfl⟩

/-- Witness for C5 on the concrete one-triangle object. -/
theorem C5_face_counts_witness :
    (export_core triObj).faces.countP (fun r => r.type == "quad") +
      (export_core triObj).faces.countP (fun r => r.type == "triangle") =
      triObj.mesh.faces.length ∧
    (export_core triObj).metadata.face_count = triObj.mesh.faces.length := by
  have h := C5_face_counts triObj (by decide)
  exact ⟨h.1, h.2.1⟩

/-- C6: each record's type tag is derived solely from its corner-index
count: exactly 4 indices yields "quad", any other count "triangle". -/
theorem C6_type_from_count (obj : Obj) :
    ∀ rec ∈ (export_core obj).faces,
      rec.type = if rec.vertices.length == 4 then "quad" else "triangle" := by
  rw [export_core_eq]
  intro rec hrec
  exact (mem_buildRecords obj.mesh.faces 0 rec hrec).choose_spec.2

/-- Witness for C6 on the concrete one-triangle object's only record. -/
theorem C6_type_from_count_witness :
    (⟨[0, 1, 2], "triangle"⟩ : FaceRecord).type =
      if (⟨[0, 1, 2], "triangle"⟩ : FaceRecord).vertices.length == 4 then
        "quad" else "triangle" :=
  C6_type_from_count triObj ⟨[0, 1, 2], "triangle"⟩
    (by rw [export_core_eq]; decide)

/-- C4: flat-shading invariant — all corners of a face read bit-identical
normal triples from `normal.array`, each equal to the face's single world
normal `matrix_world.to_3x3().normalized() @ face.normal`; per-vertex
normals are never used. -/
theorem C4_flat_normals (obj : Obj) (i : Nat) (rec : FaceRecord) (f : Face)
    (h1 : (export_core obj).faces[i]? = some rec)
    (h2 : obj.mesh.faces[i]? = some f) :
    (∀ j1 ∈ rec.vertices, ∀ j2 ∈ rec.vertices,
      tripleAt (export_core obj).attributes.normal.array j1 =
        tripleAt (export_core obj).attributes.normal.array j2) ∧
    (∀ j ∈ rec.vertices,
      tripleAt (export_core obj).attributes.normal.array j =
        ((faceWorldNormal obj.matrix_world f).x,
         (faceWorldNormal obj.matrix_world f).y,
         (faceWorldNormal obj.matrix_world f).z)) := by
  have h := tripleAt_export_normal obj i rec f h1 h2
  exact ⟨fun j1 hj1 j2 hj2 => by rw [h j1 hj1, h j2 hj2], h⟩

/-- Witness for C4 on the concrete one-triangle object: corners 0 and 1
of its only face carry identical normal triples, equal to the face's
world normal. -/
theorem C4_flat_normals_witness :
    tripleAt (export_core triObj).attributes.normal.array 0 =
      tripleAt (export_core triObj).attributes.normal.array 1 ∧
    tripleAt (export_core triObj).attributes.normal.array 0 =
      ((faceWorldNormal triObj.matrix_world triFace).x,
       (faceWorldNormal triObj.matrix_world triFace).y,
       (faceWorldNormal triObj.matrix_world triFace).z) := by
  have h1 : (export_core triObj).faces[0]? = some ⟨[0, 1, 2], "triangle"⟩ := by
    rw [export_core_eq]; decide
  have h2 : triObj.mesh.faces[0]? = some triFace := rfl
  have h := C4_flat_normals triObj 0 ⟨[0, 1, 2], "triangle"⟩ triFace h1 h2
  exact ⟨h.1 0 (by decide) 1 (by decide), h.2 0 (by decide)⟩

/-- C10 (implicit): the "uv" attribute is present exactly when the mesh
has at least one face corner, independent of whether a UV layer exists;
with no UV layer the uv array is all `(0.0, 0.0)` pairs; and (for meshes
whose faces all have corners) only a mesh with zero faces produces a
document without the "uv" key. -/
theorem C10_uv_presence (obj : Obj) :
    ((export_core obj).attributes.uv.isSome = true ↔
      0 < cornerCount obj.mesh.faces) ∧
    (obj.mesh.hasUVLayer = false →
      ∀ u, (export_core obj).attributes.uv = some u →
        u.array = List.replicate (2 * cornerCount obj.mesh.faces) 0) ∧
    ((∀ f ∈ obj.mesh.faces, f.loops ≠ []) →
      ((export_core obj).attributes.uv = none ↔ obj.mesh.faces = [])) := by
  rw [export_core_eq]
  simp only
  refine ⟨?_, ?_, ?_⟩
  · by_cases h : (uvsOfFaces obj.mesh.hasUVLayer obj.mesh.faces).isEmpty
    · have hc := (uvsOfFaces_isEmpty _ _).mp h
      simp [h, hc]
    · have hc : cornerCount obj.mesh.faces ≠ 0 :=
        fun hc => h ((uvsOfFaces_isEmpty _ _).mpr hc)
      simp [h]
      omega
  · intro hUV u hu
    split at hu
    · exact absurd hu (by simp)
    · injection hu with hu
      rw [← hu]
      simp only
      rw [hUV, uvsOfFaces_false]
  · intro hne
    constructor
    · intro hnone
      split at hnone
      case isTrue h =>
        have hc := (uvsOfFaces_isEmpty _ _).mp h
        cases hfs : obj.mesh.faces with
        | nil => rfl
        | cons f rest =>
          rw [hfs] at hc
          simp only [cornerCount, List.map_cons, List.sum_cons] at hc
          have hf0 : f.loops = [] := by
            have : f.loops.length = 0 := by omega
            exact List.length_eq_zero.mp this
          exact absurd hf0 (hne f (by rw [hfs]; exact List.mem_cons_self f rest))
      case isFalse h => exact absurd hnone (by simp)
    · intro hfs
      rw [if_pos]
      rw [(uvsOfFaces_isEmpty _ _)]
      simp [hfs, cornerCount]

/-- Witness for C10 on the concrete one-triangle object with no UV
layer: the uv attribute is present, is all zeros, and the "no corners"
criterion correctly reports a non-empty mesh. -/
theorem C10_uv_presence_witness :
    (export_core triObj).attributes.uv.isSome = true ∧
    (⟨[(0 : ℝ), 0, 0, 0, 0, 0], 2, 3⟩ : Attribute).array =
      List.replicate (2 * cornerCount triObj.mesh.faces) 0 ∧
    ((export_core triObj).attributes.uv = none ↔ triObj.mesh.faces = []) := by
  have huv : (export_core triObj).attributes.uv =
      some ⟨[(0 : ℝ), 0, 0, 0, 0, 0], 2, 3⟩ := by
    rw [export_core_eq]; rfl
  refine ⟨(C10_uv_presence triObj).1.mpr (by decide),
    (C10_uv_presence triObj).2.1 rfl _ huv,
    (C10_uv_presence triObj).2.2 (by
      intro f hf
      rw [show triObj.mesh.faces = [triFace] from rfl, List.mem_singleton] at hf
      subst hf
      simp [triFace])⟩

/-- Counterexample to C1 as stated: the mesh `triObj` is a single
triangle with NO active UV layer, yet the exported document's attributes
block DOES contain a "uv" key (the loop pushes `(0.0, 0.0)` per corner
and `if uvs:` then adds the attribute). -/
theorem C1_counterexample :
    (export_core triObj).attributes.uv ≠ none := by
  rw [export_core_eq]
  simp only
  rw [if_neg]
  · simp
  · rw [uvsOfFaces_isEmpty]
    decide

/-- C1 (amended): for a mesh with no active UV layer and at least one
corner, the exported attributes DO contain a "uv" key, whose array holds
the pair `(0.0, 0.0)` for every corner; the faces list is as the claim
says: a single 3-corner face still exports as
`[{"vertices": [0,1,2], "type": "triangle"}]`. -/
theorem C1_uv_despite_no_layer (obj : Obj)
    (h1 : obj.mesh.hasUVLayer = false)
    (h2 : 0 < cornerCount obj.mesh.faces) :
    (export_core obj).attributes.uv =
      some ⟨List.replicate (2 * cornerCount obj.mesh.faces) 0, 2,
        cornerCount obj.mesh.faces⟩ ∧
    (∀ f, obj.mesh.faces = [f] → f.loops.length = 3 →
      (export_core obj).faces = [⟨[0, 1, 2], "triangle"⟩]) := by
  rw [export_core_eq]
  simp only
  constructor
  · rw [if_neg]
    · rw [h1, uvsOfFaces_false]
    · rw [uvsOfFaces_isEmpty]
      omega
  · intro f hf hlen
    rw [hf]
    simp only [buildRecords, hlen]
    decide

/-- Witness for the amended C1 on the concrete one-triangle object. -/
theorem C1_uv_despite_no_layer_witness :
    (export_core triObj).attributes.uv =
      some ⟨List.replicate (2 * cornerCount triObj.mesh.faces) 0, 2,
        cornerCount triObj.mesh.faces⟩ ∧
    (export_core triObj).faces = [⟨[0, 1, 2], "triangle"⟩] := by
  have h := C1_uv_despite_no_layer triObj rfl (by decide)
  exact ⟨h.1, h.2 triFace rfl rfl⟩

/-- C7: with no selected object, or a selected object that is not a
polygon mesh, the export raises the invalid-input exception
("Please select a mesh object") before any output is produced, and the
filesystem — in particular the destination file — is untouched. -/
theorem C7_invalid_input (filepath : String) (active_object : Option Obj)
    (render : ℝ → String) (fs : FS)
    (h : active_object = none ∨
      ∃ obj, active_object = some obj ∧ obj.isMesh = false) :
    export_buf_format filepath active_object render fs =
      (.error "Please select a mesh object", fs) := by
  rcases h with h | ⟨obj, h, hm⟩
  · subst h; rfl
  · subst h
    simp [export_buf_format, hm]

/-- Witness for C7: exporting with no active object fails with the
invalid-input message and leaves the (empty) filesystem unchanged. -/
theorem C7_invalid_input_witness :
    export_buf_format "out.buf" none (fun _ => "") (fun _ => none) =
      (.error "Please select a mesh object", fun _ => none) :=
  C7_invalid_input "out.buf" none (fun _ => "") (fun _ => none) (Or.inl rfl)

/-- Overwriting a path with the same content twice equals writing once. -/
theorem fsWrite_idem (fs : FS) (p c : String) :
    fsWrite (fsWrite fs p c) p c = fsWrite fs p c := by
  funext q
  unfold fsWrite
  by_cases hq : q = p <;> simp [hq]

/-- C9: the export is deterministic — on a valid mesh object it writes
`serializeBuf render (export_core obj)` to the destination; running it a
second time on the same unmodified input succeeds again and leaves the
filesystem byte-identical (the same JSON document is written). -/
theorem C9_deterministic (filepath : String) (obj : Obj)
    (render : ℝ → String) (fs : FS) (h : obj.isMesh = true) :
    export_buf_format filepath (some obj) render fs =
      (.ok (), fsWrite fs filepath (serializeBuf render (export_core obj))) ∧
    export_buf_format filepath (some obj) render
        (export_buf_format filepath (some obj) render fs).2 =
      (.ok (), (export_buf_format filepath (some obj) render fs).2) ∧
    (export_buf_format filepath (some obj) render fs).2 filepath =
      some (serializeBuf render (export_core obj)) := by
  have h1 : export_buf_format filepath (some obj) render fs =
      (.ok (), fsWrite fs filepath (serializeBuf render (export_core obj))) := by
    simp [export_buf_format, h]
  refine ⟨h1, ?_, ?_⟩
  · rw [h1]
    simp only [export_buf_format, h]
    simp [fsWrite_idem]
  · rw [h1]
    simp [fsWrite]

/-- Witness for C9 on the concrete one-triangle object: the first export
writes the serialized document, and the second run reproduces the
filesystem byte for byte. -/
theorem C9_deterministic_witness :
    export_buf_format "out.buf" (some triObj) (fun _ => "") (fun _ => none) =
      (.ok (), fsWrite (fun _ => none) "out.buf"
        (serializeBuf (fun _ => "") (export_core triObj))) ∧
    export_buf_format "out.buf" (some triObj) (fun _ => "")
        (export_buf_format "out.buf" (some triObj) (fun _ => "")
          (fun _ => none)).2 =
      (.ok (), (export_buf_format "out.buf" (some triObj) (fun _ => "")
        (fun _ => none)).2) :=
  ⟨(C9_deterministic "out.buf" triObj (fun _ => "") (fun _ => none) rfl).1,
   (C9_deterministic "out.buf" triObj (fun _ => "") (fun _ => none) rfl).2.1⟩

/-- C8 (amended): the exported world-space normal of every face is the
face's local normal transformed by the COLUMN-NORMALIZED 3x3 linear part
of the world transform (`matrix_world.to_3x3().normalized()`), with no
inverse-transpose and no re-normalization of the result. -/
theorem C8_normal_transform (obj : Obj) (i : Nat) (rec : FaceRecord)
    (f : Face) (h1 : (export_core obj).faces[i]? = some rec)
    (h2 : obj.mesh.faces[i]? = some f) :
    ∀ j ∈ rec.vertices,
    tripleAt (export_core obj).attributes.normal.array j =
      ((mat3Apply (mat3NormalizedCols (mat4To3x3 obj.matrix_world))
          f.normal).x,
       (mat3Apply (mat3NormalizedCols (mat4To3x3 obj.matrix_world))
          f.normal).y,
       (mat3Apply (mat3NormalizedCols (mat4To3x3 obj.matrix_world))
          f.normal).z) :=
  tripleAt_export_normal obj i rec f h1 h2

/-- Witness for the amended C8 on the shear-transformed triangle. -/
theorem C8_normal_transform_witness :
    tripleAt (export_core shearObj).attributes.normal.array 0 =
      ((mat3Apply (mat3NormalizedCols (mat4To3x3 shearObj.matrix_world))
          shearFace.normal).x,
       (mat3Apply (mat3NormalizedCols (mat4To3x3 shearObj.matrix_world))
          shearFace.normal).y,
       (mat3Apply (mat3NormalizedCols (mat4To3x3 shearObj.matrix_world))
          shearFace.normal).z) :=
  C8_normal_transform shearObj 0 ⟨[0, 1, 2], "triangle"⟩ shearFace
    (by rw [export_core_eq]; decide) rfl 0 (by decide)

/-- Counterexample to C8 as stated: under the shear transform, the normal
the script exports for the face differs from the spec's formula (the
inverse-transpose of the 3x3 linear part, column-normalized, applied to
the local normal, re-normalized to unit length).  The script's value is
`(3/5, 9/5, 0)` (not even unit length), the spec's value is unit. -/
theorem C8_counterexample :
    tripleAt (export_core shearObj).attributes.normal.array 0 ≠
      ((specWorldNormal shearObj.matrix_world shearFace.normal).x,
       (specWorldNormal shearObj.matrix_world shearFace.normal).y,
       (specWorldNormal shearObj.matrix_world shearFace.normal).z) := by
  have h25 : Real.sqrt 25 = 5 := by
    rw [show (25 : ℝ) = 5 ^ 2 by norm_num]
    exact Real.sqrt_sq (by norm_num)
  have h19 : Real.sqrt ((1 : ℝ) / 9) = 1 / 3 := by
    rw [show ((1 : ℝ) / 9) = (1 / 3) ^ 2 by norm_num]
    exact Real.sqrt_sq (by norm_num)
  have h19' : Real.sqrt ((9 : ℝ)⁻¹) = 1 / 3 := by
    rw [show ((9 : ℝ)⁻¹) = (1 / 3) ^ 2 by norm_num]
    exact Real.sqrt_sq (by norm_num)
  have h1s : Real.sqrt 1 = 1 := Real.sqrt_one
  have hcode : tripleAt (export_core shearObj).attributes.normal.array 0 =
      ((3 : ℝ) / 5, (9 : ℝ) / 5, (0 : ℝ)) := by
    have h := tripleAt_export_normal shearObj 0 ⟨[0, 1, 2], "triangle"⟩
      shearFace (by rw [export_core_eq]; decide) rfl 0 (by decide)
    rw [h]
    simp only [faceWorldNormal, mat3NormalizedCols, mat3Apply, mat4To3x3,
      shearObj, shearFace, shearMat4]
    norm_num [h25, h1s]
  have hspec : (specWorldNormal shearObj.matrix_world shearFace.normal).y =
      (3 / 5) / Real.sqrt ((2 : ℝ) / 5) := by
    simp only [specWorldNormal, vecNormalize, mat3NormalizedCols, mat3Apply,
      mat3Transpose, mat3Inverse, mat3Det, mat4To3x3, shearObj, shearFace,
      shearMat4]
    norm_num [h19, h19', h1s]
  rw [hcode]
  intro heq
  have hy : (9 : ℝ) / 5 =
      (specWorldNormal shearObj.matrix_world shearFace.normal).y :=
    congrArg (fun t => t.2.1) heq
  rw [hspec] at hy
  have hpos : (0 : ℝ) < Real.sqrt (2 / 5) := Real.sqrt_pos.mpr (by norm_num)
  rw [eq_div_iff (ne_of_gt hpos)] at hy
  have hs13 : Real.sqrt ((2 : ℝ) / 5) = 1 / 3 := by linarith
  have hsq : ((2 : ℝ) / 5) = (1 / 3) ^ 2 := by
    rw [← hs13, Real.sq_sqrt (by norm_num : (0 : ℝ) ≤ 2 / 5)]
  norm_num at hsq
